import Mathlib

/-!
Shallow embedding of the Base arbitrage bot (dual/triple DEX cbBTC-USDC price
monitor and arbitrage simulator).  JavaScript numbers are modelled as exact
rationals (ℚ); the raw `sqrtPriceX96` sample is an arbitrary-precision integer,
exactly as the source holds it in a BigInt.  Fallible operations (the implicit
`BigInt(..)` conversion, the `getDexCostModel` lookup that throws on an unknown
DEX name) are modelled with `Option`: `none` stands for a thrown exception that
the surrounding `try/catch` turns into a skipped cycle.
-/

namespace BaseArb

/-- Configuration values read from the environment by `config.js`.  Decimal
counts are naturals, fee/gas/threshold amounts are rationals.  The PancakeSwap
cost fields appear in the triple-DEX variant's `getDexCostModel`. -/
structure Config where
  cbBTCDecimals : ℕ
  usdcDecimals : ℕ
  uniswapGasFeeUSDC : ℚ
  aerodromeGasFeeUSDC : ℚ
  aerodromeFeeBps : ℚ
  pancakeFixedFeeUSDC : ℚ
  pancakeGasFeeUSDC : ℚ
  priceChangeThreshold : ℚ
deriving DecidableEq, Repr

/-- A sample configuration used for concrete evaluations: the documented token
decimals (cbBTC 8, USDC 6) and the documented default cost values
(UNISWAP_GAS_FEE_USDC 0.004, AERODROME_GAS_FEE_USDC 0.005, AERODROME_FEE_BPS 1,
PRICE_CHANGE_THRESHOLD 0.01), with sample PancakeSwap cost values. -/
def defaultConfig : Config where
  cbBTCDecimals := 8
  usdcDecimals := 6
  uniswapGasFeeUSDC := 1 / 250
  aerodromeGasFeeUSDC := 1 / 200
  aerodromeFeeBps := 1
  pancakeFixedFeeUSDC := 1 / 100
  pancakeGasFeeUSDC := 3 / 500
  priceChangeThreshold := 1 / 100

/-- Result of the JavaScript `BigInt(x)` conversion applied to a finite number
`x`: it succeeds exactly when `x` is an integer (negative integers included)
and throws a RangeError otherwise. -/
def jsToBigInt (x : ℚ) : Option ℤ :=
  if x.den = 1 then some x.num else none

/-- Core of `calculatePrice` / `calculateAerodromePrice` from the source, after
the `BigInt` conversion, with the two config decimal reads passed as arguments
(the source reads `config.tokens.USDC.decimals` and
`config.tokens.cbBTC.decimals`).  Both branches build the same
`numerator = s * s * 10 ^ usdcDecimals` and
`denominator = Q96 * Q96 * 10 ^ cbBTCDecimals` with `Q96 = 2 ^ 96`; the
non-inverted branch returns `numerator / denominator` and the inverted branch
returns `1 / (numerator / denominator)`. -/
def calculatePriceCore (usdcDecimals cbBTCDecimals : ℕ) (s : ℤ) (isInverted : Bool) : ℚ :=
  let q96 : ℤ := 2 ^ 96
  let numerator : ℤ := s * s * 10 ^ usdcDecimals
  let denominator : ℤ := q96 * q96 * 10 ^ cbBTCDecimals
  if isInverted then
    let cbBTCperUSDC : ℚ := (numerator : ℚ) / (denominator : ℚ)
    1 / cbBTCperUSDC
  else
    (numerator : ℚ) / (denominator : ℚ)

/-- The source's `calculatePrice(sqrtPriceX96, isInverted)` on an
already-converted integer sample, reading decimals from the config. -/
def calculatePrice (cfg : Config) (s : ℤ) (isInverted : Bool) : ℚ :=
  calculatePriceCore cfg.usdcDecimals cfg.cbBTCDecimals s isInverted

/-- The spec's `derivePrice(rawSample, isInverted, baseDecimals, quoteDecimals)`
signature instantiated on the source's algorithm: the base asset is cbBTC and
the quote asset is USDC, so `baseDecimals` plays the role of the cbBTC decimal
count and `quoteDecimals` the USDC one. -/
def derivePrice (s : ℕ) (isInverted : Bool) (baseDecimals quoteDecimals : ℕ) : ℚ :=
  calculatePriceCore quoteDecimals baseDecimals (s : ℤ) isInverted

/-- Full `calculatePrice` on a raw JavaScript-number argument, including the
`BigInt(sqrtPriceX96)` conversion at the top of the function: a non-integer
argument makes the conversion throw, modelled as `none`. -/
def calculatePriceChecked (cfg : Config) (raw : ℚ) (isInverted : Bool) : Option ℚ :=
  (jsToBigInt raw).map (fun s => calculatePrice cfg s isInverted)

/-- A JavaScript number that is either finite or positive infinity; used to
model the one place the source can produce `Infinity`: dividing `1` by a zero
price in the inverted branch of `calculatePrice`. -/
inductive JsNumber where
  | val (q : ℚ)
  | posInf
deriving DecidableEq, Repr

/-- JavaScript division `a / b` for a positive finite numerator `a` and a
nonnegative finite denominator `b`: division by zero yields `Infinity`. -/
def jsDiv (a b : ℚ) : JsNumber :=
  if b = 0 then JsNumber.posInf else JsNumber.val (a / b)

/-- `calculatePrice` with the inverted branch's final division modelled at
JavaScript semantics, so the zero-sample edge case is visible: the inverted
branch computes `1 / cbBTCperUSDC`, which is `Infinity` when the ratio is 0. -/
def calculatePriceJs (cfg : Config) (s : ℤ) (isInverted : Bool) : JsNumber :=
  let q96 : ℤ := 2 ^ 96
  let numerator : ℤ := s * s * 10 ^ cfg.usdcDecimals
  let denominator : ℤ := q96 * q96 * 10 ^ cfg.cbBTCDecimals
  if isInverted then
    jsDiv 1 ((numerator : ℚ) / (denominator : ℚ))
  else
    JsNumber.val ((numerator : ℚ) / (denominator : ℚ))

/-- The source's `calculateSpread(price1, price2)`. -/
def calculateSpread (price1 price2 : ℚ) : ℚ :=
  ((price1 - price2) / price2) * 100

/-- One entry of the `spreads` array built in `findAndSimulateBestSpread`. -/
structure SpreadEntry where
  dex1 : String
  dex2 : String
  spread : ℚ
  price1 : ℚ
  price2 : ℚ
deriving DecidableEq, Repr

/-- The `spreads.reduce((max, curr) => curr.spread > max.spread ? curr : max)`
call: a left fold starting from the first array element, where a later entry
replaces the accumulator only when its spread is strictly greater. -/
def maxSpreadPair (first : SpreadEntry) (rest : List SpreadEntry) : SpreadEntry :=
  rest.foldl (fun mx curr => if curr.spread > mx.spread then curr else mx) first

/-- The three-entry `spreads` array of `findAndSimulateBestSpread`, built from
the last known Uniswap, Aerodrome and PancakeSwap prices. -/
def spreadEntries (u a p : ℚ) : List SpreadEntry :=
  [ { dex1 := "Uniswap", dex2 := "Aerodrome",
      spread := |calculateSpread a u|, price1 := u, price2 := a },
    { dex1 := "Uniswap", dex2 := "PancakeSwap",
      spread := |calculateSpread p u|, price1 := u, price2 := p },
    { dex1 := "Aerodrome", dex2 := "PancakeSwap",
      spread := |calculateSpread p a|, price1 := a, price2 := p } ]

/-- Best-spread selection over the three venues, as performed by
`findAndSimulateBestSpread` (and identically during initialization). -/
def bestSpreadPair (u a p : ℚ) : SpreadEntry :=
  maxSpreadPair
    { dex1 := "Uniswap", dex2 := "Aerodrome",
      spread := |calculateSpread a u|, price1 := u, price2 := a }
    [ { dex1 := "Uniswap", dex2 := "PancakeSwap",
        spread := |calculateSpread p u|, price1 := u, price2 := p },
      { dex1 := "Aerodrome", dex2 := "PancakeSwap",
        spread := |calculateSpread p a|, price1 := a, price2 := p } ]

/-- Cost model of a venue, mirroring the two shapes returned by
`getDexCostModel`: a proportional basis-point fee, or a fixed USDC fee
(the branch taken when `fixedFeeUSDC !== undefined`).  Both carry the per-leg
gas cost. -/
inductive CostModel where
  | proportional (feeBps gasFeeUSDC : ℚ)
  | fixedFee (fixedFeeUSDC gasFeeUSDC : ℚ)
deriving DecidableEq, Repr

/-- The `gasFeeUSDC` field present in both cost-model shapes. -/
def CostModel.gasFeeUSDC : CostModel → ℚ
  | CostModel.proportional _ g => g
  | CostModel.fixedFee _ g => g

/-- The source's `getDexCostModel(dexName)`: Uniswap is proportional at 0 bps,
Aerodrome proportional at the configured bps, PancakeSwap fixed-fee; any other
name throws `Unknown DEX`, modelled as `none`. -/
def getDexCostModel (cfg : Config) (dexName : String) : Option CostModel :=
  if dexName = "Uniswap" then
    some (CostModel.proportional 0 cfg.uniswapGasFeeUSDC)
  else if dexName = "Aerodrome" then
    some (CostModel.proportional cfg.aerodromeFeeBps cfg.aerodromeGasFeeUSDC)
  else if dexName = "PancakeSwap" then
    some (CostModel.fixedFee cfg.pancakeFixedFeeUSDC cfg.pancakeGasFeeUSDC)
  else
    none

/-- The source's `totalGasCostForDirection(buyDex, sellDex)`: the sum of the
two venues' gas costs, looked up through `getDexCostModel` (so it too throws on
an unknown name). -/
def totalGasCostForDirection (cfg : Config) (buyDex sellDex : String) : Option ℚ := do
  let buyGas := (← getDexCostModel cfg buyDex).gasFeeUSDC
  let sellGas := (← getDexCostModel cfg sellDex).gasFeeUSDC
  pure (buyGas + sellGas)

/-- Return object of `calculateArbDirection`; the nested `details` record is
flattened into the same structure (the logging-only echo fields are omitted). -/
structure ArbResult where
  isProfitable : Bool
  netProfitUSDC : ℚ
  netProfitPct : ℚ
  buyDex : String
  sellDex : String
  tradeSizeCbBTC : ℚ
  usdcSpentBeforeFee : ℚ
  usdcSpentAfterFee : ℚ
  usdcReceivedBeforeFee : ℚ
  usdcReceivedAfterFee : ℚ
  buyTradeFeesUSDC : ℚ
  sellTradeFeesUSDC : ℚ
  totalGasCostUSDC : ℚ
deriving DecidableEq, Repr

/-- Body of `calculateArbDirection` once both cost-model lookups have
succeeded.  `totalGasCostForDirection` repeats the same two lookups the
function has just performed, so with both models in hand it contributes
`buyModel.gasFeeUSDC + sellModel.gasFeeUSDC`. -/
def calculateArbDirectionM (buyDex sellDex : String) (buyModel sellModel : CostModel)
    (buyPrice sellPrice tradeSizeCbBTC : ℚ) : ArbResult :=
  let usdcSpentBeforeFee := tradeSizeCbBTC * buyPrice
  let buyLeg :=
    match buyModel with
    | CostModel.fixedFee f _ => (f, usdcSpentBeforeFee + f)
    | CostModel.proportional feeBps _ =>
        let fee := usdcSpentBeforeFee * (feeBps / 10000)
        (fee, usdcSpentBeforeFee + fee)
  let buyTradeFeesUSDC := buyLeg.1
  let usdcSpentAfterFee := buyLeg.2
  let usdcReceivedBeforeFee := tradeSizeCbBTC * sellPrice
  let sellLeg :=
    match sellModel with
    | CostModel.fixedFee f _ => (f, usdcReceivedBeforeFee - f)
    | CostModel.proportional feeBps _ =>
        let fee := usdcReceivedBeforeFee * (feeBps / 10000)
        (fee, usdcReceivedBeforeFee - fee)
  let sellTradeFeesUSDC := sellLeg.1
  let usdcReceivedAfterFee := sellLeg.2
  let totalGasCostUSDC := buyModel.gasFeeUSDC + sellModel.gasFeeUSDC
  let netUSDC := usdcReceivedAfterFee - totalGasCostUSDC
  let netProfitUSDC := netUSDC - usdcSpentAfterFee
  let netProfitPct := (netProfitUSDC / usdcSpentAfterFee) * 100
  { isProfitable := decide (netProfitUSDC > 0)
    netProfitUSDC := netProfitUSDC
    netProfitPct := netProfitPct
    buyDex := buyDex
    sellDex := sellDex
    tradeSizeCbBTC := tradeSizeCbBTC
    usdcSpentBeforeFee := usdcSpentBeforeFee
    usdcSpentAfterFee := usdcSpentAfterFee
    usdcReceivedBeforeFee := usdcReceivedBeforeFee
    usdcReceivedAfterFee := usdcReceivedAfterFee
    buyTradeFeesUSDC := buyTradeFeesUSDC
    sellTradeFeesUSDC := sellTradeFeesUSDC
    totalGasCostUSDC := totalGasCostUSDC }

/-- The source's `calculateArbDirection({...})`: it first resolves both venues'
cost models (throwing `Unknown DEX` on failure, modelled as `none`) and then
performs the pure per-direction computation. -/
def calculateArbDirection (cfg : Config) (buyDex sellDex : String)
    (buyPrice sellPrice tradeSizeCbBTC : ℚ) : Option ArbResult := do
  let buyModel ← getDexCostModel cfg buyDex
  let sellModel ← getDexCostModel cfg sellDex
  pure (calculateArbDirectionM buyDex sellDex buyModel sellModel buyPrice sellPrice tradeSizeCbBTC)

/-- The source's `getArbTradeSizeUSDC(overallBudgetUSDC, budgetPercent)`. -/
def getArbTradeSizeUSDC (overallBudgetUSDC budgetPercent : ℚ) : ℚ :=
  overallBudgetUSDC * (budgetPercent / 100)

/-- The source's `simulateArbitrageForPair`: evaluates direction A (buy on
DEX1, sell on DEX2) then direction B (the mirror), and returns
`directionA.netProfitUSDC > directionB.netProfitUSDC ? directionA :
directionB`. -/
def simulateArbitrageForPair (cfg : Config) (dex1Name : String) (dex1Price : ℚ)
    (dex2Name : String) (dex2Price : ℚ) (currentBudgetUSDC budgetPct : ℚ) :
    Option ArbResult := do
  let tradeSizeUSDC := getArbTradeSizeUSDC currentBudgetUSDC budgetPct
  let directionA ← calculateArbDirection cfg dex1Name dex2Name dex1Price dex2Price
    (tradeSizeUSDC / dex1Price)
  let directionB ← calculateArbDirection cfg dex2Name dex1Name dex2Price dex1Price
    (tradeSizeUSDC / dex2Price)
  pure (if directionA.netProfitUSDC > directionB.netProfitUSDC then directionA else directionB)

/-- The budget-compounding step guarded by
`if (arbResult.isProfitable && arbResult.netProfitUSDC > 0)` in the source. -/
def compoundBudget (overallBudgetUSDC : ℚ) (arbResult : ArbResult) : ℚ :=
  if arbResult.isProfitable && decide (arbResult.netProfitUSDC > 0) then
    overallBudgetUSDC + arbResult.netProfitUSDC
  else
    overallBudgetUSDC

/-- Simulation followed by the budget update, as executed inside an event
listener: a thrown `Unknown DEX` error propagates to the listener's `catch`
before the budget line runs, leaving the budget unchanged. -/
def simulateAndCompoundBudget (cfg : Config) (dex1Name : String) (dex1Price : ℚ)
    (dex2Name : String) (dex2Price : ℚ) (currentBudgetUSDC budgetPct : ℚ) : ℚ :=
  match simulateArbitrageForPair cfg dex1Name dex1Price dex2Name dex2Price
      currentBudgetUSDC budgetPct with
  | none => currentBudgetUSDC
  | some r => compoundBudget currentBudgetUSDC r

/-- The module-level mutable state of `monitorPool` in the triple-DEX variant:
the three last known venue prices and the overall budget. -/
structure MonitorState where
  lastUniswapPrice : ℚ
  lastAerodromePrice : ℚ
  lastPancakePrice : ℚ
  overallBudgetUSDC : ℚ
deriving DecidableEq, Repr

/-- The `maxSpreadPair` value computed by `findAndSimulateBestSpread` from the
current monitor state. -/
def bestPairOf (st : MonitorState) : SpreadEntry :=
  bestSpreadPair st.lastUniswapPrice st.lastAerodromePrice st.lastPancakePrice

/-- The source's `findAndSimulateBestSpread` closure: pick the pair with the
maximal absolute spread, simulate both directions for it with the current
budget, and compound the budget when the result is profitable. -/
def findAndSimulateBestSpread (cfg : Config) (budgetPercent : ℚ)
    (st : MonitorState) : MonitorState :=
  match simulateArbitrageForPair cfg (bestPairOf st).dex1 (bestPairOf st).price1
      (bestPairOf st).dex2 (bestPairOf st).price2 st.overallBudgetUSDC budgetPercent with
  | none => st
  | some arbResult =>
      { st with overallBudgetUSDC := compoundBudget st.overallBudgetUSDC arbResult }

/-- One Uniswap `Swap`-event cycle of the triple-DEX variant.  The raw
`sqrtPriceX96` argument is modelled as a rational (a JavaScript number): a
non-integer value makes the `BigInt` conversion inside `calculatePrice` throw,
the listener's `catch` swallows it and every piece of state stays unchanged.
Otherwise the new price is derived; when it differs from the stored price by
more than the threshold, the stored price is overwritten and
`findAndSimulateBestSpread` runs.  The returned flag records whether that
simulation ran. -/
def processUniswapSwap (cfg : Config) (budgetPercent : ℚ) (isInverted : Bool)
    (st : MonitorState) (raw : ℚ) : MonitorState × Bool :=
  match jsToBigInt raw with
  | none => (st, false)
  | some s =>
      if |calculatePrice cfg s isInverted - st.lastUniswapPrice| > cfg.priceChangeThreshold then
        (findAndSimulateBestSpread cfg budgetPercent
          { st with lastUniswapPrice := calculatePrice cfg s isInverted }, true)
      else
        (st, false)

/-- A configuration with dyadic cost values (gas 0.25, PancakeSwap fixed fee
0.25) chosen so that the two simulated directions between Uniswap and
PancakeSwap at equal prices tie exactly even under IEEE-754 double
arithmetic. -/
def tieConfig : Config where
  cbBTCDecimals := 8
  usdcDecimals := 6
  uniswapGasFeeUSDC := 1/4
  aerodromeGasFeeUSDC := 1/4
  aerodromeFeeBps := 1
  pancakeFixedFeeUSDC := 1/4
  pancakeGasFeeUSDC := 1/4
  priceChangeThreshold := 1/100

/-- Budget can only grow in one compounding step: the guarded update adds
`netProfitUSDC` only when it is positive. -/
theorem le_compoundBudget (b : ℚ) (r : ArbResult) : b ≤ compoundBudget b r := by
  unfold compoundBudget
  split
  · rename_i hc
    rw [Bool.and_eq_true, decide_eq_true_eq] at hc
    linarith [hc.2]
  · exact le_rfl

/-- A nonpositive simulated profit leaves the budget untouched. -/
theorem compoundBudget_of_nonpos (b : ℚ) (r : ArbResult) (h : r.netProfitUSDC ≤ 0) :
    compoundBudget b r = b := by
  unfold compoundBudget
  split
  · rename_i hc
    rw [Bool.and_eq_true, decide_eq_true_eq] at hc
    linarith [hc.2]
  · rfl

/-- One best-spread simulation cycle never decreases the stored budget. -/
theorem findAndSimulate_budget_le (cfg : Config) (pct : ℚ) (st : MonitorState) :
    st.overallBudgetUSDC ≤ (findAndSimulateBestSpread cfg pct st).overallBudgetUSDC := by
  unfold findAndSimulateBestSpread
  split
  · exact le_rfl
  · exact le_compoundBudget _ _

/-- The best-spread simulation cycle only touches the budget, never the stored
per-venue prices. -/
theorem findAndSimulate_lastUniswap (cfg : Config) (pct : ℚ) (st : MonitorState) :
    (findAndSimulateBestSpread cfg pct st).lastUniswapPrice = st.lastUniswapPrice := by
  unfold findAndSimulateBestSpread
  split
  · rfl
  · rfl

/-- A whole Swap-event cycle never decreases the stored budget. -/
theorem process_budget_le (cfg : Config) (pct : ℚ) (inv : Bool) (st : MonitorState) (raw : ℚ) :
    st.overallBudgetUSDC ≤ (processUniswapSwap cfg pct inv st raw).1.overallBudgetUSDC := by
  unfold processUniswapSwap
  split
  · exact le_rfl
  · split
    · exact findAndSimulate_budget_le _ _ _
    · exact le_rfl

/-- C1: for registered cost models and positive prices and trade size,
`calculateArbDirection` computes the buy-leg spend as `tradeSize * buyPrice`
with a proportional fee `spentBeforeFee * feeBps/10000` (or a flat fee) added
on top of spend, the sell-leg proceeds as `tradeSize * sellPrice` with the
sell venue's fee subtracted, total gas as the sum of both venues' gas costs
deducted once from the proceeds, `netProfitUSDC = (receivedAfterFee -
totalGas) - spentAfterFee`, `netProfitPct = netProfitUSDC / spentAfterFee *
100`, and `isProfitable` exactly when the net profit is positive. -/
theorem calculateArbDirection_matches_spec (cfg : Config) (buyDex sellDex : String)
    (buyModel sellModel : CostModel) (buyPrice sellPrice tradeSizeCbBTC : ℚ)
    (r : ArbResult)
    (h1 : getDexCostModel cfg buyDex = some buyModel)
    (h2 : getDexCostModel cfg sellDex = some sellModel)
    (hb : 0 < buyPrice) (hs : 0 < sellPrice) (ht : 0 < tradeSizeCbBTC)
    (hr : calculateArbDirection cfg buyDex sellDex buyPrice sellPrice tradeSizeCbBTC = some r) :
    r.usdcSpentBeforeFee = tradeSizeCbBTC * buyPrice
    ∧ (∀ feeBps g, buyModel = CostModel.proportional feeBps g →
        r.usdcSpentAfterFee = r.usdcSpentBeforeFee + r.usdcSpentBeforeFee * (feeBps / 10000))
    ∧ (∀ f g, buyModel = CostModel.fixedFee f g →
        r.usdcSpentAfterFee = r.usdcSpentBeforeFee + f)
    ∧ r.usdcReceivedBeforeFee = tradeSizeCbBTC * sellPrice
    ∧ (∀ feeBps g, sellModel = CostModel.proportional feeBps g →
        r.usdcReceivedAfterFee = r.usdcReceivedBeforeFee - r.usdcReceivedBeforeFee * (feeBps / 10000))
    ∧ (∀ f g, sellModel = CostModel.fixedFee f g →
        r.usdcReceivedAfterFee = r.usdcReceivedBeforeFee - f)
    ∧ totalGasCostForDirection cfg buyDex sellDex
        = some (buyModel.gasFeeUSDC + sellModel.gasFeeUSDC)
    ∧ r.totalGasCostUSDC = buyModel.gasFeeUSDC + sellModel.gasFeeUSDC
    ∧ r.netProfitUSDC = (r.usdcReceivedAfterFee - r.totalGasCostUSDC) - r.usdcSpentAfterFee
    ∧ r.netProfitPct = r.netProfitUSDC / r.usdcSpentAfterFee * 100
    ∧ (r.isProfitable = true ↔ 0 < r.netProfitUSDC) := by
  rw [calculateArbDirection, h1, h2] at hr
  simp only [Bind.bind, Option.bind, Option.pure_def, Option.some.injEq] at hr
  subst hr
  refine ⟨rfl, ?_, ?_, rfl, ?_, ?_, ?_, ?_, ?_, ?_, ?_⟩
  · rintro feeBps g rfl
    simp [calculateArbDirectionM]
  · rintro f g rfl
    simp [calculateArbDirectionM]
  · rintro feeBps g rfl
    cases buyModel <;> simp [calculateArbDirectionM]
  · rintro f g rfl
    cases buyModel <;> simp [calculateArbDirectionM]
  · rw [totalGasCostForDirection, h1, h2]
    rfl
  · cases buyModel <;> cases sellModel <;> rfl
  · cases buyModel <;> cases sellModel <;> rfl
  · cases buyModel <;> cases sellModel <;> rfl
  · simp only [calculateArbDirectionM, decide_eq_true_eq]

/-- Witness for C1: the per-direction computation evaluated with the Uniswap
and Aerodrome cost models at concrete prices 90000 and 90200 and trade size
0.1 cbBTC spends 9000 USDC before fees on the buy leg. -/
theorem calculateArbDirection_matches_spec_witness :
    getDexCostModel defaultConfig "Uniswap" = some (CostModel.proportional 0 (1/250))
    ∧ (calculateArbDirectionM "Uniswap" "Aerodrome" (CostModel.proportional 0 (1/250))
        (CostModel.proportional 1 (1/200)) 90000 90200 (1/10)).usdcSpentBeforeFee
      = (1/10) * 90000 :=
  ⟨rfl,
    (calculateArbDirection_matches_spec defaultConfig "Uniswap" "Aerodrome"
      (CostModel.proportional 0 (1/250)) (CostModel.proportional 1 (1/200))
      90000 90200 (1/10)
      (calculateArbDirectionM "Uniswap" "Aerodrome" (CostModel.proportional 0 (1/250))
        (CostModel.proportional 1 (1/200)) 90000 90200 (1/10))
      rfl rfl (by norm_num) (by norm_num) (by norm_num) rfl).1⟩

/-- C2: for every nonnegative integer raw sample `S`, the non-inverted price
equals `(S * S * 10 ^ quoteDecimals) / (2 ^ 96 * 2 ^ 96 * 10 ^ baseDecimals)`
(computed exactly, divided only at the final step), and the inverted price is
one divided by that same quotient. -/
theorem calculatePrice_bigint_ratio (cfg : Config) (S : ℕ) :
    calculatePrice cfg (S : ℤ) false
      = ((S * S * 10 ^ cfg.usdcDecimals : ℕ) : ℚ)
          / ((2 ^ 96 * 2 ^ 96 * 10 ^ cfg.cbBTCDecimals : ℕ) : ℚ)
    ∧ calculatePrice cfg (S : ℤ) true
      = 1 / (((S * S * 10 ^ cfg.usdcDecimals : ℕ) : ℚ)
          / ((2 ^ 96 * 2 ^ 96 * 10 ^ cfg.cbBTCDecimals : ℕ) : ℚ)) := by
  constructor <;>
  · simp only [calculatePrice, calculatePriceCore]
    push_cast
    ring_nf

/-- C3 counterexample: with prices U = 90000, A = 89900, P = 90200 the
best-spread selection does not return the Uniswap/PancakeSwap pair; it returns
Aerodrome/PancakeSwap, whose absolute spread 300/899 percent is the largest. -/
theorem bestSpreadPair_not_uniswap_pancake :
    (bestSpreadPair 90000 89900 90200).dex1 ≠ "Uniswap"
    ∧ (bestSpreadPair 90000 89900 90200).dex1 = "Aerodrome" := by
  have h : (bestSpreadPair 90000 89900 90200).dex1 = "Aerodrome" := by
    simp only [bestSpreadPair, maxSpreadPair, calculateSpread, List.foldl]
    norm_num [abs, max_def]
  refine ⟨?_, h⟩
  rw [h]
  decide

/-- C3 amended: with exactly the venue prices U = 90000, A = 89900, P = 90200
the best-spread selection (maximal absolute percentage spread over all
unordered venue pairs) returns the pair (A, P). -/
theorem bestSpreadPair_aero_pancake :
    (bestSpreadPair 90000 89900 90200).dex1 = "Aerodrome"
    ∧ (bestSpreadPair 90000 89900 90200).dex2 = "PancakeSwap"
    ∧ (bestSpreadPair 90000 89900 90200).price1 = 89900
    ∧ (bestSpreadPair 90000 89900 90200).price2 = 90200 := by
  refine ⟨?_, ?_, ?_, ?_⟩ <;>
  · simp only [bestSpreadPair, maxSpreadPair, calculateSpread, List.foldl]
    norm_num [abs, max_def]

/-- C4: the budget is monotonically non-decreasing across every simulation and
event cycle; it changes only by adding a strictly positive net profit of a
simulation judged profitable, and a zero-or-negative net profit leaves it
unchanged. -/
theorem budget_monotone_nondecreasing (cfg : Config) (budgetPercent : ℚ)
    (st : MonitorState) (budget : ℚ) (r : ArbResult) (isInverted : Bool) (raw : ℚ) :
    st.overallBudgetUSDC ≤ (findAndSimulateBestSpread cfg budgetPercent st).overallBudgetUSDC
    ∧ st.overallBudgetUSDC
        ≤ (processUniswapSwap cfg budgetPercent isInverted st raw).1.overallBudgetUSDC
    ∧ budget ≤ compoundBudget budget r
    ∧ (r.netProfitUSDC ≤ 0 → compoundBudget budget r = budget)
    ∧ (compoundBudget budget r ≠ budget →
        r.isProfitable = true ∧ 0 < r.netProfitUSDC
          ∧ compoundBudget budget r = budget + r.netProfitUSDC) := by
  refine ⟨findAndSimulate_budget_le cfg budgetPercent st,
    process_budget_le cfg budgetPercent isInverted st raw,
    le_compoundBudget budget r,
    compoundBudget_of_nonpos budget r,
    ?_⟩
  unfold compoundBudget
  split
  · rename_i hc
    rw [Bool.and_eq_true, decide_eq_true_eq] at hc
    exact fun _ => ⟨hc.1, hc.2, rfl⟩
  · exact fun hne => absurd rfl hne

/-- Witness for C4: a concrete losing direction (equal prices on a venue with
gas costs) leaves a budget of 1000 unchanged, and the compounded budget is
never below the starting budget. -/
theorem budget_monotone_nondecreasing_witness :
    compoundBudget 1000 (calculateArbDirectionM "Uniswap" "Uniswap"
        (CostModel.proportional 0 (1/250)) (CostModel.proportional 0 (1/250)) 100 100 1)
      = 1000
    ∧ (1000 : ℚ) ≤ compoundBudget 1000 (calculateArbDirectionM "Uniswap" "Uniswap"
        (CostModel.proportional 0 (1/250)) (CostModel.proportional 0 (1/250)) 100 100 1) :=
  ⟨(budget_monotone_nondecreasing defaultConfig 5 ⟨0, 0, 0, 0⟩ 1000
      (calculateArbDirectionM "Uniswap" "Uniswap"
        (CostModel.proportional 0 (1/250)) (CostModel.proportional 0 (1/250)) 100 100 1)
      false 0).2.2.2.1
      (by simp only [calculateArbDirectionM, CostModel.gasFeeUSDC]; norm_num),
    (budget_monotone_nondecreasing defaultConfig 5 ⟨0, 0, 0, 0⟩ 1000
      (calculateArbDirectionM "Uniswap" "Uniswap"
        (CostModel.proportional 0 (1/250)) (CostModel.proportional 0 (1/250)) 100 100 1)
      false 0).2.2.1⟩

/-- C5 counterexample: at equal prices on Uniswap and PancakeSwap the two
directions' net profits tie exactly, and the simulator returns the
second-evaluated direction (buy on PancakeSwap, the second-named venue), not
the first-evaluated one as the claim states. -/
theorem simulate_tie_returns_second_direction :
    (calculateArbDirection tieConfig "Uniswap" "PancakeSwap" 32768 32768
        (getArbTradeSizeUSDC 1024 50 / 32768)).map ArbResult.netProfitUSDC
      = (calculateArbDirection tieConfig "PancakeSwap" "Uniswap" 32768 32768
        (getArbTradeSizeUSDC 1024 50 / 32768)).map ArbResult.netProfitUSDC
    ∧ (simulateArbitrageForPair tieConfig "Uniswap" 32768 "PancakeSwap" 32768 1024 50).map
        ArbResult.buyDex = some "PancakeSwap"
    ∧ (simulateArbitrageForPair tieConfig "Uniswap" 32768 "PancakeSwap" 32768 1024 50).map
        ArbResult.buyDex ≠ some "Uniswap" := by
  have hU : getDexCostModel tieConfig "Uniswap" = some (CostModel.proportional 0 (1/4)) := rfl
  have hP : getDexCostModel tieConfig "PancakeSwap" = some (CostModel.fixedFee (1/4) (1/4)) := rfl
  have h1 : (calculateArbDirection tieConfig "Uniswap" "PancakeSwap" 32768 32768
        (getArbTradeSizeUSDC 1024 50 / 32768)).map ArbResult.netProfitUSDC
      = (calculateArbDirection tieConfig "PancakeSwap" "Uniswap" 32768 32768
        (getArbTradeSizeUSDC 1024 50 / 32768)).map ArbResult.netProfitUSDC := by
    simp only [calculateArbDirection, hU, hP, getArbTradeSizeUSDC, calculateArbDirectionM,
      CostModel.gasFeeUSDC, Bind.bind, Option.bind, Option.pure_def]
    norm_num
  have h2 : (simulateArbitrageForPair tieConfig "Uniswap" 32768 "PancakeSwap" 32768 1024 50).map
      ArbResult.buyDex = some "PancakeSwap" := by
    simp only [simulateArbitrageForPair, calculateArbDirection, hU, hP,
      getArbTradeSizeUSDC, calculateArbDirectionM, CostModel.gasFeeUSDC,
      Bind.bind, Option.bind, Option.pure_def]
    norm_num
  refine ⟨h1, h2, ?_⟩
  rw [h2]
  decide

/-- C5 amended: for registered venues the simulator returns the direction with
the strictly higher net profit of the two evaluated directions, and when the
two net profits are equal it returns the second-evaluated direction (buy on
the second-named venue, sell on the first). -/
theorem simulateArbitrageForPair_selects_best (cfg : Config) (d1 d2 : String)
    (m1 m2 : CostModel) (p1 p2 B pct : ℚ)
    (h1 : getDexCostModel cfg d1 = some m1) (h2 : getDexCostModel cfg d2 = some m2) :
    simulateArbitrageForPair cfg d1 p1 d2 p2 B pct
      = some (if (calculateArbDirectionM d1 d2 m1 m2 p1 p2 (getArbTradeSizeUSDC B pct / p1)).netProfitUSDC
                > (calculateArbDirectionM d2 d1 m2 m1 p2 p1 (getArbTradeSizeUSDC B pct / p2)).netProfitUSDC
              then calculateArbDirectionM d1 d2 m1 m2 p1 p2 (getArbTradeSizeUSDC B pct / p1)
              else calculateArbDirectionM d2 d1 m2 m1 p2 p1 (getArbTradeSizeUSDC B pct / p2))
    ∧ ((calculateArbDirectionM d1 d2 m1 m2 p1 p2 (getArbTradeSizeUSDC B pct / p1)).netProfitUSDC
          = (calculateArbDirectionM d2 d1 m2 m1 p2 p1 (getArbTradeSizeUSDC B pct / p2)).netProfitUSDC →
        simulateArbitrageForPair cfg d1 p1 d2 p2 B pct
          = some (calculateArbDirectionM d2 d1 m2 m1 p2 p1 (getArbTradeSizeUSDC B pct / p2))) := by
  have hmain : simulateArbitrageForPair cfg d1 p1 d2 p2 B pct
      = some (if (calculateArbDirectionM d1 d2 m1 m2 p1 p2 (getArbTradeSizeUSDC B pct / p1)).netProfitUSDC
                > (calculateArbDirectionM d2 d1 m2 m1 p2 p1 (getArbTradeSizeUSDC B pct / p2)).netProfitUSDC
              then calculateArbDirectionM d1 d2 m1 m2 p1 p2 (getArbTradeSizeUSDC B pct / p1)
              else calculateArbDirectionM d2 d1 m2 m1 p2 p1 (getArbTradeSizeUSDC B pct / p2)) := by
    unfold simulateArbitrageForPair calculateArbDirection
    rw [h1, h2]
    rfl
  refine ⟨hmain, fun htie => ?_⟩
  rw [hmain, htie, if_neg (lt_irrefl _)]

/-- Witness for C5: at the exact tie between Uniswap and PancakeSwap at equal
prices, the simulator returns the second-evaluated direction. -/
theorem simulateArbitrageForPair_selects_best_witness :
    getDexCostModel tieConfig "Uniswap" = some (CostModel.proportional 0 (1/4))
    ∧ simulateArbitrageForPair tieConfig "Uniswap" 32768 "PancakeSwap" 32768 1024 50
        = some (calculateArbDirectionM "PancakeSwap" "Uniswap"
            (CostModel.fixedFee (1/4) (1/4)) (CostModel.proportional 0 (1/4))
            32768 32768 (getArbTradeSizeUSDC 1024 50 / 32768)) := by
  refine ⟨rfl, ?_⟩
  refine (simulateArbitrageForPair_selects_best tieConfig "Uniswap" "PancakeSwap"
      (CostModel.proportional 0 (1/4)) (CostModel.fixedFee (1/4) (1/4))
      32768 32768 1024 50 rfl rfl).2 ?_
  simp only [calculateArbDirectionM, CostModel.gasFeeUSDC, getArbTradeSizeUSDC]
  norm_num

/-- C6: an unrecognized venue identifier makes the cost-model lookup fail, so
the whole simulation call fails (the thrown error is modelled as `none`), and
the budget is left unmodified by the aborted cycle. -/
theorem unknown_venue_aborts_simulation (cfg : Config) (d1 d2 : String) (p1 p2 B pct : ℚ)
    (h : getDexCostModel cfg d1 = none ∨ getDexCostModel cfg d2 = none) :
    simulateArbitrageForPair cfg d1 p1 d2 p2 B pct = none
    ∧ simulateAndCompoundBudget cfg d1 p1 d2 p2 B pct = B := by
  have hsim : simulateArbitrageForPair cfg d1 p1 d2 p2 B pct = none := by
    unfold simulateArbitrageForPair calculateArbDirection
    rcases h with h | h
    · simp [h, Bind.bind, Option.bind]
    · cases hl : getDexCostModel cfg d1 <;> simp [h, hl, Bind.bind, Option.bind]
  refine ⟨hsim, ?_⟩
  unfold simulateAndCompoundBudget
  rw [hsim]

/-- Witness for C6: the venue name Sushi is not registered; simulating against
it fails and a budget of 1000 is unchanged. -/
theorem unknown_venue_aborts_simulation_witness :
    getDexCostModel defaultConfig "Sushi" = none
    ∧ simulateArbitrageForPair defaultConfig "Sushi" 90000 "Uniswap" 90100 1000 5 = none
    ∧ simulateAndCompoundBudget defaultConfig "Sushi" 90000 "Uniswap" 90100 1000 5 = 1000 :=
  ⟨rfl,
    (unknown_venue_aborts_simulation defaultConfig "Sushi" "Uniswap" 90000 90100 1000 5
      (Or.inl rfl)).1,
    (unknown_venue_aborts_simulation defaultConfig "Sushi" "Uniswap" 90000 90100 1000 5
      (Or.inl rfl)).2⟩

/-- C7 counterexample: the inverted derivation with decimals (8, 6) at the raw
sample `2 ^ 96` yields 100, while the reciprocal of the non-inverted
derivation with the decimals swapped yields 1/100; the two differ by far more
than any floating-point tolerance. -/
theorem derivePrice_swap_decimals_counterexample :
    derivePrice (2 ^ 96) true 8 6 = 100
    ∧ 1 / derivePrice (2 ^ 96) false 6 8 = 1 / 100
    ∧ 1 < |derivePrice (2 ^ 96) true 8 6 - 1 / derivePrice (2 ^ 96) false 6 8| := by
  refine ⟨?_, ?_, ?_⟩ <;>
  · simp only [derivePrice, calculatePriceCore]
    norm_num [abs, max_def]

/-- C7 amended: the inverted derivation is the exact reciprocal of the
non-inverted derivation with the same decimal arguments (the code computes the
identical quotient in both branches and the inverted branch returns one over
it); the claimed round trip with the decimals swapped does not hold. -/
theorem derivePrice_inverted_reciprocal (s : ℕ) (d0 d1 : ℕ) :
    derivePrice s true d0 d1 = 1 / derivePrice s false d0 d1 := rfl

/-- C8: with the fixed non-inverted configuration of 8 base decimals and 6
quote decimals the derived price is strictly increasing in the raw sample. -/
theorem derivePrice_strictMono (S1 S2 : ℕ) (h : S1 < S2) :
    derivePrice S1 false 8 6 < derivePrice S2 false 8 6 := by
  simp only [derivePrice, calculatePriceCore, Bool.false_eq_true, if_false]
  have hS : (S1 : ℚ) < (S2 : ℚ) := by exact_mod_cast h
  have h0 : (0 : ℚ) ≤ (S1 : ℚ) := by positivity
  rw [div_lt_div_iff₀ (by positivity) (by positivity)]
  push_cast
  nlinarith [hS, h0]

/-- Witness for C8: the derived price at raw sample 3 is below the derived
price at raw sample 5. -/
theorem derivePrice_strictMono_witness :
    (3 : ℕ) < 5 ∧ derivePrice 3 false 8 6 < derivePrice 5 false 8 6 :=
  ⟨by norm_num, derivePrice_strictMono 3 5 (by norm_num)⟩

/-- C9 counterexample: a negative raw value is not rejected: the `BigInt`
conversion accepts the negative integer -1 and the squaring step makes the
derived price equal to the one for +1, so no `InvalidSample` condition is
raised for negative integers. -/
theorem negative_sample_accepted :
    calculatePriceChecked defaultConfig (-1) false
      = some (calculatePrice defaultConfig (-1) false)
    ∧ calculatePriceChecked defaultConfig (-1) false ≠ none
    ∧ calculatePrice defaultConfig (-1) false = calculatePrice defaultConfig 1 false := by
  have hj : jsToBigInt (-1) = some (-1) := by norm_num [jsToBigInt]
  refine ⟨?_, ?_, ?_⟩
  · simp [calculatePriceChecked, hj]
  · simp [calculatePriceChecked, hj]
  · simp only [calculatePrice, calculatePriceCore]
    norm_num

/-- C9 amended: the price derivation fails (`InvalidSample`, modelled as
`none`) exactly for raw values that are not integers, and on such a failure
the stored per-venue price state and the rest of the monitor state are left
unchanged; negative integer raw values are accepted, not rejected. -/
theorem invalid_sample_non_integer (cfg : Config) (pct : ℚ) (inv : Bool)
    (st : MonitorState) (raw : ℚ) (h : raw.den ≠ 1) :
    calculatePriceChecked cfg raw inv = none
    ∧ processUniswapSwap cfg pct inv st raw = (st, false) := by
  have hj : jsToBigInt raw = none := by simp [jsToBigInt, h]
  constructor
  · simp [calculatePriceChecked, hj]
  · unfold processUniswapSwap
    rw [hj]

/-- Witness for C9: the non-integer raw value 1/2 is rejected and a concrete
monitor state passes through a Swap-event cycle unchanged. -/
theorem invalid_sample_non_integer_witness :
    ((1 : ℚ)/2).den ≠ 1
    ∧ calculatePriceChecked defaultConfig ((1 : ℚ)/2) false = none
    ∧ processUniswapSwap defaultConfig 5 false ⟨90000, 89900, 90200, 10000⟩ ((1 : ℚ)/2)
        = (⟨90000, 89900, 90200, 10000⟩, false) := by
  have h : ((1 : ℚ)/2).den ≠ 1 := by norm_num
  exact ⟨h,
    (invalid_sample_non_integer defaultConfig 5 false ⟨90000, 89900, 90200, 10000⟩ ((1 : ℚ)/2) h).1,
    (invalid_sample_non_integer defaultConfig 5 false ⟨90000, 89900, 90200, 10000⟩ ((1 : ℚ)/2) h).2⟩

/-- C10: the derivation is total at the zero sample: with `isInverted = true`
it returns the reciprocal of zero (JavaScript `Infinity`, modelled as
`JsNumber.posInf`) and with `isInverted = false` it returns exactly 0, neither
signalling an error; and no guard stops the zero price from flowing into the
spread computation: a Swap-event cycle at raw sample 0 stores the price 0 and
still runs the best-spread simulation over it. -/
theorem zero_sample_total_no_guard :
    calculatePriceJs defaultConfig 0 true = JsNumber.posInf
    ∧ calculatePriceJs defaultConfig 0 false = JsNumber.val 0
    ∧ calculatePriceChecked defaultConfig 0 true ≠ none
    ∧ calculatePrice defaultConfig 0 false = 0
    ∧ (processUniswapSwap defaultConfig 5 false ⟨90000, 89900, 90200, 10000⟩ 0).2 = true
    ∧ (processUniswapSwap defaultConfig 5 false
        ⟨90000, 89900, 90200, 10000⟩ 0).1.lastUniswapPrice = 0 := by
  have hp : calculatePrice defaultConfig 0 false = 0 := by
    simp [calculatePrice, calculatePriceCore]
  have hj : jsToBigInt 0 = some 0 := by norm_num [jsToBigInt]
  have hproc : processUniswapSwap defaultConfig 5 false ⟨90000, 89900, 90200, 10000⟩ 0
      = (findAndSimulateBestSpread defaultConfig 5
          { lastUniswapPrice := calculatePrice defaultConfig 0 false,
            lastAerodromePrice := 89900, lastPancakePrice := 90200,
            overallBudgetUSDC := 10000 }, true) := by
    unfold processUniswapSwap
    rw [hj]
    dsimp only
    rw [if_pos]
    rw [hp]
    show |(0:ℚ) - 90000| > defaultConfig.priceChangeThreshold
    rw [show defaultConfig.priceChangeThreshold = 1/100 from rfl]
    norm_num [abs, max_def]
  refine ⟨?_, ?_, ?_, hp, ?_, ?_⟩
  · simp [calculatePriceJs, jsDiv]
  · simp [calculatePriceJs]
  · simp [calculatePriceChecked, jsToBigInt]
  · rw [hproc]
  · rw [hproc]
    simp only [findAndSimulate_lastUniswap]
    rw [hp]

end BaseArb
